import Mathlib

/-!
Shallow embedding of `src/src/flask/app.py` (a fragment of the Flask
application object): the module-level helper `_make_timedelta`, the class
body of `Flask` (class attributes, `__init__`, `_register_error_handler`,
the `name` property and its setter), together with theorems checking the
specification's claims about this code.

Python dictionaries are modelled as association lists wrapped in a
structure `Dict`; assignment `d[k] = v` replaces the value at the first
occurrence of `k` or appends a fresh entry, and `d.setdefault(k, v)`
is unfolded at its single use site.
-/

/-- Association-list model of a Python `dict`. -/
structure Dict (K V : Type) where
  entries : List (K × V)
deriving DecidableEq, Repr

/-- Lookup of the first entry with the given key. -/
def lookupEntry {K V : Type} [DecidableEq K] : List (K × V) → K → Option V
  | [], _ => Option.none
  | (k', v) :: rest, k => if k = k' then some v else lookupEntry rest k

/-- Python `d[k] = v`: replace the value at the first occurrence of `k`,
or append a fresh entry at the end. -/
def insertEntry {K V : Type} [DecidableEq K] : List (K × V) → K → V → List (K × V)
  | [], k, v => [(k, v)]
  | (k', v') :: rest, k, v =>
      if k = k' then (k', v) :: rest else (k', v') :: insertEntry rest k v

/-- Python `{}`. -/
def Dict.empty {K V : Type} : Dict K V := ⟨[]⟩

/-- Python `d.get(k)` / `d[k]` lookup. -/
def Dict.get? {K V : Type} [DecidableEq K] (d : Dict K V) (k : K) : Option V :=
  lookupEntry d.entries k

/-- Python `d[k] = v`. -/
def Dict.insert {K V : Type} [DecidableEq K] (d : Dict K V) (k : K) (v : V) : Dict K V :=
  ⟨insertEntry d.entries k v⟩

theorem lookupEntry_insertEntry_self {K V : Type} [DecidableEq K]
    (l : List (K × V)) (k : K) (v : V) :
    lookupEntry (insertEntry l k v) k = some v := by
  induction l with
  | nil => simp [insertEntry, lookupEntry]
  | cons hd tl ih =>
      obtain ⟨k', v'⟩ := hd
      by_cases hk : k = k'
      · simp [insertEntry, lookupEntry, hk]
      · simp [insertEntry, lookupEntry, hk, ih]

theorem lookupEntry_insertEntry_ne {K V : Type} [DecidableEq K]
    (l : List (K × V)) (k k₂ : K) (v : V) (h : k₂ ≠ k) :
    lookupEntry (insertEntry l k v) k₂ = lookupEntry l k₂ := by
  induction l with
  | nil => simp [insertEntry, lookupEntry, h]
  | cons hd tl ih =>
      obtain ⟨k', v'⟩ := hd
      by_cases hk : k = k'
      · subst hk
        simp [insertEntry, lookupEntry, h]
      · by_cases hk2 : k₂ = k'
        · simp [insertEntry, lookupEntry, hk, hk2]
        · simp [insertEntry, lookupEntry, hk, hk2, ih]

theorem insertEntry_insertEntry_same {K V : Type} [DecidableEq K]
    (l : List (K × V)) (k : K) (v w : V) :
    insertEntry (insertEntry l k v) k w = insertEntry l k w := by
  induction l with
  | nil => simp [insertEntry]
  | cons hd tl ih =>
      obtain ⟨k', v'⟩ := hd
      by_cases hk : k = k'
      · simp [insertEntry, hk]
      · simp [insertEntry, hk, ih]

theorem Dict.get?_insert_self {K V : Type} [DecidableEq K]
    (d : Dict K V) (k : K) (v : V) :
    (d.insert k v).get? k = some v :=
  lookupEntry_insertEntry_self d.entries k v

theorem Dict.get?_insert_ne {K V : Type} [DecidableEq K]
    (d : Dict K V) (k k₂ : K) (v : V) (h : k₂ ≠ k) :
    (d.insert k v).get? k₂ = d.get? k₂ :=
  lookupEntry_insertEntry_ne d.entries k k₂ v h

theorem Dict.insert_insert_same {K V : Type} [DecidableEq K]
    (d : Dict K V) (k : K) (v w : V) :
    (d.insert k v).insert k w = d.insert k w := by
  simp [Dict.insert, insertEntry_insertEntry_same]

/-- Python `datetime.timedelta`, normalized to a total count of
microseconds (the class stores days/seconds/microseconds, an exact
integer quantity). -/
structure Timedelta where
  microseconds : Int
deriving DecidableEq, Repr

/-- Python `timedelta(seconds=n)`. -/
def Timedelta.ofSeconds (n : Int) : Timedelta := ⟨n * 1000000⟩

/-- The possible arguments of `_make_timedelta`
(`timedelta | int | None`). -/
inductive TimedeltaArg
  | isNone
  | td (t : Timedelta)
  | int (n : Int)
deriving DecidableEq, Repr

/-- `_make_timedelta` from `src/src/flask/app.py` lines 69-80. -/
def _make_timedelta : TimedeltaArg → Option Timedelta
  | .isNone => Option.none
  | .td t => some t
  | .int n => some (Timedelta.ofSeconds n)

/-- An opaque tag for a Python callable (hook functions, view functions,
extensions, values stored in the registries). The file never inspects
these values, so a tag suffices. -/
structure Callable where
  tag : String
deriving DecidableEq, Repr

/-- Exception classes as used by the error-handler registry keys. The two
classes named in the file are distinguished constructors. -/
inductive ExcClass
  | NotFound
  | HTTPException
  | otherExc (tag : String)
deriving DecidableEq, Repr

/-- Error-handler callables. `__init__` registers the two bound methods
`self.handle_user_exception` and `self.handle_http_exception`; other
handlers are tagged. -/
inductive Handler
  | handle_user_exception
  | handle_http_exception
  | otherHandler (tag : String)
deriving DecidableEq, Repr

/-- `threading.Lock`: freshly created locks are unlocked. -/
structure Lock where
  locked : Bool
deriving DecidableEq, Repr

/-- `threading.Lock()` creates a new, unlocked lock. -/
def Lock.new : Lock := ⟨false⟩

/-- Modelled from the spec: the value `self.url_map_class()` would produce,
"a URL map". The class attribute `url_map_class` is not defined in
`src/src/flask/app.py`; the spec only says the application holds a URL
map, so the model records an initially empty rule list. -/
structure UrlMap where
  rules : List String
deriving DecidableEq, Repr

/-- Modelled from the spec: a fresh, empty URL map. -/
def UrlMap.new : UrlMap := ⟨[]⟩

/-- Modelled from the spec: the class attribute `default_config`, which is
not defined in `src/src/flask/app.py`. It is only ever passed opaquely to
the configuration constructor, so a nullary token suffices. -/
structure DefaultConfig where
deriving DecidableEq, Repr

/-- Modelled from the spec: the value of the missing `default_config`
class attribute. -/
def default_config : DefaultConfig := ⟨⟩

/-- Modelled from the spec: "a configuration object". The class `Config`
lives in the unshown module `flask.config`; `__init__` calls
`self.config_class(self.root_path, self.default_config,
self.instance_relative_config)`, so the model records exactly those three
constructor arguments. -/
structure Config where
  root_path : Option String
  defaults : DefaultConfig
  instance_relative : Bool
deriving DecidableEq, Repr

/-- Modelled from the spec: `cli.AppGroup()` from the unshown module
`flask.cli`, used only as an opaque freshly created value. -/
structure CliAppGroup where
deriving DecidableEq, Repr

/-- Modelled from the spec: a fresh `cli.AppGroup()`. -/
def CliAppGroup.new : CliAppGroup := ⟨⟩

/-- `AppOrBlueprintKey = Optional[str]` from `flask.typing`: registries
are keyed by a blueprint name or by `None` for the application itself. -/
abbrev AppOrBlueprintKey := Option String

/-- The instance state of a `Flask` object: every attribute assigned in
`Flask.__init__` (`src/src/flask/app.py` lines 203-248) plus `_name`,
which the `name` property setter stores. -/
structure Flask where
  _got_first_request : Bool
  _before_request_lock : Lock
  _before_request_funcs : Dict AppOrBlueprintKey (List Callable)
  _after_request_funcs : Dict AppOrBlueprintKey (List Callable)
  _teardown_request_funcs : Dict AppOrBlueprintKey (List Callable)
  _teardown_appcontext_funcs : Dict AppOrBlueprintKey (List Callable)
  _url_default_functions : Dict AppOrBlueprintKey (List Callable)
  _url_value_preprocessors : Dict AppOrBlueprintKey (List Callable)
  _template_context_processors : Dict AppOrBlueprintKey (List Callable)
  _error_handlers : Dict AppOrBlueprintKey (Dict ExcClass Handler)
  _before_first_request_funcs : List Callable
  _name : String
  url_map : UrlMap
  static_folder : Option String
  static_url_path : Option String
  static_host : Option String
  host_matching : Bool
  subdomain_matching : Bool
  template_folder : Option String
  instance_path : Option String
  instance_relative_config : Bool
  root_path : Option String
  config : Config
  view_functions : Dict String Callable
  blueprints : Dict String Callable
  extensions : Dict String Callable
  shell_context_processors : List Callable
  _cli_commands : CliAppGroup
deriving DecidableEq, Repr

/-- The `name` property setter (`src/src/flask/app.py` lines 274-276):
`self._name = value`. -/
def Flask.set_name (app : Flask) (value : String) : Flask :=
  { app with _name := value }

/-- `Flask._register_error_handler` (`src/src/flask/app.py` lines
253-259): `self._error_handlers.setdefault(None, {})[exception_class] =
handler`, with `setdefault` unfolded into a lookup-with-default followed
by the two dictionary assignments it performs. -/
def Flask._register_error_handler (app : Flask) (exception_class : ExcClass)
    (handler : Handler) : Flask :=
  let inner := (app._error_handlers.get? Option.none).getD Dict.empty
  { app with
      _error_handlers :=
        app._error_handlers.insert Option.none (inner.insert exception_class handler) }

/-- `Flask.__init__` (`src/src/flask/app.py` lines 190-251), assuming the
class-attribute reads that the file leaves undefined resolve to the
spec-modelled values above. `self.name = import_name` goes through the
`name` setter. -/
def Flask.init (import_name : String) (static_url_path : Option String)
    (static_folder : Option String) (static_host : Option String)
    (host_matching : Bool) (subdomain_matching : Bool)
    (template_folder : Option String) (instance_path : Option String)
    (instance_relative_config : Bool) (root_path : Option String) : Flask :=
  let app : Flask := {
    _got_first_request := false
    _before_request_lock := Lock.new
    _before_request_funcs := Dict.empty
    _after_request_funcs := Dict.empty
    _teardown_request_funcs := Dict.empty
    _teardown_appcontext_funcs := Dict.empty
    _url_default_functions := Dict.empty
    _url_value_preprocessors := Dict.empty
    _template_context_processors := Dict.empty
    _error_handlers := Dict.empty
    _before_first_request_funcs := []
    _name := ""
    url_map := UrlMap.new
    static_folder := static_folder
    static_url_path := static_url_path
    static_host := static_host
    host_matching := host_matching
    subdomain_matching := subdomain_matching
    template_folder := template_folder
    instance_path := instance_path
    instance_relative_config := instance_relative_config
    root_path := root_path
    config := { root_path := root_path
                defaults := default_config
                instance_relative := instance_relative_config }
    view_functions := Dict.empty
    blueprints := Dict.empty
    extensions := Dict.empty
    shell_context_processors := []
    _cli_commands := CliAppGroup.new }
  let app := app.set_name import_name
  let app := app._register_error_handler ExcClass.NotFound Handler.handle_user_exception
  app._register_error_handler ExcClass.HTTPException Handler.handle_http_exception

/-- `os.path.basename` on POSIX: everything after the last `/`,
computed on the character list (take the longest `/`-free tail). -/
def os_path_basename (p : String) : String :=
  ⟨((p.data.reverse.takeWhile (fun c => c ≠ '/')).reverse)⟩

/-- Python `str.endswith`: character-level suffix test. -/
def str_endswith (s sfx : String) : Bool :=
  sfx.data.isSuffixOf s.data

/-- Python slicing `s[:-n]`: drop the last `n` characters (empty result
when `n` exceeds the length, as in Python). -/
def str_dropRight (s : String) (n : Nat) : String :=
  ⟨s.data.take (s.data.length - n)⟩

/-- The `name` property getter (`src/src/flask/app.py` lines 261-272).
`sys.argv[0]` is passed explicitly as `argv0`. `base[:-3]` drops the last
three characters. -/
def Flask.name (app : Flask) (argv0 : String) : String :=
  if app._name = "__main__" then
    let base := os_path_basename argv0
    if str_endswith base ".py" then str_dropRight base 3 else base
  else
    app._name

/-- The names the class body of `src/src/flask/app.py` defines on the
class `Flask`, in source order: the class attributes of lines 162-188 and
the methods/properties of lines 190-279. Python attribute lookup on
`self` for a name never assigned on the instance falls back to exactly
this set. -/
inductive FlaskClassAttr
  | request_class
  | response_class
  | jinja_environment
  | app_ctx_globals_class
  | config_class
  | test_client_class
  | session_interface
  | dunder_init
  | register_error_handler_method
  | name_property
  | dunder_repr
  | url_map_class
  | dc_default_config
  | handle_user_exception
  | handle_http_exception
deriving DecidableEq, Repr

/-- The class attributes and methods actually defined in the class body
of the file (the last four constructors of `FlaskClassAttr` name
attributes the constructor reads but the file never defines). -/
def Flask.classBodyAttrs : List FlaskClassAttr :=
  [.request_class, .response_class, .jinja_environment, .app_ctx_globals_class,
   .config_class, .test_client_class, .session_interface,
   .dunder_init, .register_error_handler_method, .name_property, .dunder_repr]

/-- Python attribute lookup of a class-level name during `__init__`:
succeeds on the names the class body defines, raises `AttributeError`
(modelled as `Except.error`) otherwise. -/
def lookupClassAttr (a : FlaskClassAttr) : Except FlaskClassAttr Unit :=
  if a ∈ Flask.classBodyAttrs then Except.ok () else Except.error a

/-- `Flask.__init__` with the class-attribute reads it performs modelled
faithfully against the file: in program order it reads `url_map_class`
(line 228), `config_class` (line 239), `default_config` (line 240),
`handle_user_exception` (line 250) and `handle_http_exception`
(line 251); the first read of a name the file does not define raises
`AttributeError` before the constructor returns. -/
def Flask.init_checked (import_name : String) (static_url_path : Option String)
    (static_folder : Option String) (static_host : Option String)
    (host_matching : Bool) (subdomain_matching : Bool)
    (template_folder : Option String) (instance_path : Option String)
    (instance_relative_config : Bool) (root_path : Option String) :
    Except FlaskClassAttr Flask := do
  let _ ← lookupClassAttr .url_map_class
  let _ ← lookupClassAttr .config_class
  let _ ← lookupClassAttr .dc_default_config
  let _ ← lookupClassAttr .handle_user_exception
  let _ ← lookupClassAttr .handle_http_exception
  Except.ok (Flask.init import_name static_url_path static_folder static_host
    host_matching subdomain_matching template_folder instance_path
    instance_relative_config root_path)

/-- A concrete application used by witnesses and counterexamples:
`Flask("sample")` with all other arguments at their declared defaults. -/
def sampleApp : Flask :=
  Flask.init "sample" Option.none (some "static") Option.none false false
    (some "templates") Option.none false Option.none

/-- A concrete application whose import name is the sentinel:
`Flask("__main__")` with all other arguments at their defaults. -/
def mainApp : Flask :=
  Flask.init "__main__" Option.none (some "static") Option.none false false
    (some "templates") Option.none false Option.none

/-- The error-handler registry as `__init__` leaves it: the single
application-level key `None` mapping `NotFound` to
`handle_user_exception` and `HTTPException` to `handle_http_exception`. -/
def defaultErrorHandlers : Dict AppOrBlueprintKey (Dict ExcClass Handler) :=
  ⟨[(Option.none,
      ⟨[(ExcClass.NotFound, Handler.handle_user_exception),
        (ExcClass.HTTPException, Handler.handle_http_exception)]⟩)]⟩

/-- C8: `_make_timedelta` returns `None` if and only if its argument is
`None`; a `timedelta` argument is returned unchanged; an integer `n`
yields the timedelta of exactly `n` seconds. -/
theorem C8_make_timedelta_cases :
    (∀ a : TimedeltaArg, _make_timedelta a = Option.none ↔ a = TimedeltaArg.isNone) ∧
    (∀ t : Timedelta, _make_timedelta (TimedeltaArg.td t) = some t) ∧
    (∀ n : Int, _make_timedelta (TimedeltaArg.int n) = some (Timedelta.ofSeconds n)) := by
  refine ⟨?_, fun t => rfl, fun n => rfl⟩
  intro a
  cases a <;> simp [_make_timedelta]

/-- C2: the `name` property returns the stored import name when it
differs from `"__main__"`; when it equals `"__main__"`, it returns the
basename of `sys.argv[0]`, with its last three characters (the `".py"`
suffix) dropped exactly when the basename ends with `".py"`. -/
theorem C2_name_property (app : Flask) (argv0 : String) :
    (app._name ≠ "__main__" → app.name argv0 = app._name) ∧
    (app._name = "__main__" → str_endswith (os_path_basename argv0) ".py" = true →
        app.name argv0 = str_dropRight (os_path_basename argv0) 3) ∧
    (app._name = "__main__" → str_endswith (os_path_basename argv0) ".py" = false →
        app.name argv0 = os_path_basename argv0) := by
  refine ⟨fun h => by simp [Flask.name, h],
    fun h hpy => by simp [Flask.name, h, hpy],
    fun h hpy => by simp [Flask.name, h, hpy]⟩

/-- Witness for C2: `Flask("sample").name` with script `/usr/bin/tool.py`
is `"sample"`; `Flask("__main__").name` is `"tool"` both for script
`/usr/bin/tool.py` and for script `/usr/bin/tool`. -/
theorem C2_name_property_witness :
    sampleApp.name "/usr/bin/tool.py" = "sample" ∧
    mainApp.name "/usr/bin/tool.py" = "tool" ∧
    mainApp.name "/usr/bin/tool" = "tool" :=
  ⟨((C2_name_property sampleApp "/usr/bin/tool.py").1 (by decide)).trans (by decide),
   ((C2_name_property mainApp "/usr/bin/tool.py").2.1 (by decide) (by decide)).trans (by decide),
   ((C2_name_property mainApp "/usr/bin/tool").2.2 (by decide) (by decide)).trans (by decide)⟩

/-- C3: immediately after construction the error-handler registry holds
exactly the application-level key `None`, mapping `NotFound` to
`handle_user_exception` and `HTTPException` to `handle_http_exception`,
and nothing else. -/
theorem C3_default_error_handlers (import_name : String)
    (static_url_path static_folder static_host : Option String)
    (host_matching subdomain_matching : Bool)
    (template_folder instance_path : Option String)
    (instance_relative_config : Bool) (root_path : Option String) :
    (Flask.init import_name static_url_path static_folder static_host
        host_matching subdomain_matching template_folder instance_path
        instance_relative_config root_path)._error_handlers =
      defaultErrorHandlers := rfl

/-- C5: the constructor stores its parameters unchanged (`_name` is the
stored import name, written through the `name` setter) and builds the
configuration object from `root_path`, `default_config` and
`instance_relative_config`. -/
theorem C5_init_stores_arguments (import_name : String)
    (static_url_path static_folder static_host : Option String)
    (host_matching subdomain_matching : Bool)
    (template_folder instance_path : Option String)
    (instance_relative_config : Bool) (root_path : Option String) :
    ∀ app : Flask,
      app = Flask.init import_name static_url_path static_folder static_host
          host_matching subdomain_matching template_folder instance_path
          instance_relative_config root_path →
      app._name = import_name ∧
      app.static_folder = static_folder ∧
      app.static_url_path = static_url_path ∧
      app.static_host = static_host ∧
      app.host_matching = host_matching ∧
      app.subdomain_matching = subdomain_matching ∧
      app.template_folder = template_folder ∧
      app.instance_path = instance_path ∧
      app.instance_relative_config = instance_relative_config ∧
      app.root_path = root_path ∧
      app.config = Config.mk root_path default_config instance_relative_config :=
  fun _ happ => happ ▸ ⟨rfl, rfl, rfl, rfl, rfl, rfl, rfl, rfl, rfl, rfl, rfl⟩

/-- Witness for C5: the concrete `Flask("sample")` stores its arguments
unchanged, in particular its name and its static folder. -/
theorem C5_init_stores_arguments_witness :
    sampleApp._name = "sample" ∧ sampleApp.static_folder = some "static" :=
  ⟨(C5_init_stores_arguments "sample" Option.none (some "static") Option.none
      false false (some "templates") Option.none false Option.none sampleApp
      rfl).1,
   (C5_init_stores_arguments "sample" Option.none (some "static") Option.none
      false false (some "templates") Option.none false Option.none sampleApp
      rfl).2.1⟩

/-- C6: first-request bookkeeping starts with `_got_first_request` equal
to `False`, and `_before_request_lock` is a freshly created (unlocked)
lock. -/
theorem C6_first_request_bookkeeping (import_name : String)
    (static_url_path static_folder static_host : Option String)
    (host_matching subdomain_matching : Bool)
    (template_folder instance_path : Option String)
    (instance_relative_config : Bool) (root_path : Option String) :
    (Flask.init import_name static_url_path static_folder static_host
        host_matching subdomain_matching template_folder instance_path
        instance_relative_config root_path)._got_first_request = false ∧
    (Flask.init import_name static_url_path static_folder static_host
        host_matching subdomain_matching template_folder instance_path
        instance_relative_config root_path)._before_request_lock = Lock.new :=
  ⟨rfl, rfl⟩

/-- C4: as written in this file the constructor cannot complete normally:
its first class-attribute read of a name the file never defines is
`url_map_class` at line 228, so for every argument combination the
attribute-checked constructor raises there (and in particular never
returns an application object). -/
theorem C4_init_cannot_complete (import_name : String)
    (static_url_path static_folder static_host : Option String)
    (host_matching subdomain_matching : Bool)
    (template_folder instance_path : Option String)
    (instance_relative_config : Bool) (root_path : Option String) :
    Flask.init_checked import_name static_url_path static_folder static_host
        host_matching subdomain_matching template_folder instance_path
        instance_relative_config root_path =
      Except.error FlaskClassAttr.url_map_class := rfl

/-- C7: `_register_error_handler(E, h)` makes the registry under key
`None` map `E` to `h` (overwriting any previous handler for `E`), leaves
every other exception class under `None`, every other registry key and
every other field of the object unchanged, and registering the same pair
twice is idempotent. -/
theorem C7_register_error_handler (a : Flask) (E : ExcClass) (h : Handler) :
    (((a._register_error_handler E h)._error_handlers.get?
        Option.none).getD Dict.empty).get? E = some h ∧
    (∀ E₂, E₂ ≠ E →
      (((a._register_error_handler E h)._error_handlers.get?
          Option.none).getD Dict.empty).get? E₂ =
        ((a._error_handlers.get? Option.none).getD Dict.empty).get? E₂) ∧
    (∀ k, k ≠ Option.none →
      (a._register_error_handler E h)._error_handlers.get? k =
        a._error_handlers.get? k) ∧
    (a._register_error_handler E h)._got_first_request = a._got_first_request ∧
    (a._register_error_handler E h)._before_request_lock = a._before_request_lock ∧
    (a._register_error_handler E h)._before_request_funcs = a._before_request_funcs ∧
    (a._register_error_handler E h)._after_request_funcs = a._after_request_funcs ∧
    (a._register_error_handler E h)._teardown_request_funcs = a._teardown_request_funcs ∧
    (a._register_error_handler E h)._teardown_appcontext_funcs = a._teardown_appcontext_funcs ∧
    (a._register_error_handler E h)._url_default_functions = a._url_default_functions ∧
    (a._register_error_handler E h)._url_value_preprocessors = a._url_value_preprocessors ∧
    (a._register_error_handler E h)._template_context_processors = a._template_context_processors ∧
    (a._register_error_handler E h)._before_first_request_funcs = a._before_first_request_funcs ∧
    (a._register_error_handler E h)._name = a._name ∧
    (a._register_error_handler E h).url_map = a.url_map ∧
    (a._register_error_handler E h).static_folder = a.static_folder ∧
    (a._register_error_handler E h).static_url_path = a.static_url_path ∧
    (a._register_error_handler E h).static_host = a.static_host ∧
    (a._register_error_handler E h).host_matching = a.host_matching ∧
    (a._register_error_handler E h).subdomain_matching = a.subdomain_matching ∧
    (a._register_error_handler E h).template_folder = a.template_folder ∧
    (a._register_error_handler E h).instance_path = a.instance_path ∧
    (a._register_error_handler E h).instance_relative_config = a.instance_relative_config ∧
    (a._register_error_handler E h).root_path = a.root_path ∧
    (a._register_error_handler E h).config = a.config ∧
    (a._register_error_handler E h).view_functions = a.view_functions ∧
    (a._register_error_handler E h).blueprints = a.blueprints ∧
    (a._register_error_handler E h).extensions = a.extensions ∧
    (a._register_error_handler E h).shell_context_processors = a.shell_context_processors ∧
    (a._register_error_handler E h)._cli_commands = a._cli_commands ∧
    (a._register_error_handler E h)._register_error_handler E h =
      a._register_error_handler E h := by
  refine ⟨?_, ?_, ?_, rfl, rfl, rfl, rfl, rfl, rfl, rfl, rfl, rfl, rfl, rfl,
    rfl, rfl, rfl, rfl, rfl, rfl, rfl, rfl, rfl, rfl, rfl, rfl, rfl, rfl,
    rfl, rfl, ?_⟩
  · simp [Flask._register_error_handler, Dict.get?_insert_self]
  · intro E₂ hne
    simp [Flask._register_error_handler, Dict.get?_insert_self,
      Dict.get?_insert_ne _ _ _ _ hne]
  · intro k hk
    simp [Flask._register_error_handler, Dict.get?_insert_ne _ _ _ _ hk]
  · simp [Flask._register_error_handler, Dict.get?_insert_self,
      Dict.insert_insert_same]

/-- Witness for C7: registering a handler for `ValueError` on the sample
application stores it under `None`, does not disturb the default
`NotFound` handler, and does not disturb the (absent) registry entry of
the blueprint key `"bp"`. -/
theorem C7_register_error_handler_witness :
    (((sampleApp._register_error_handler (ExcClass.otherExc "ValueError")
        (Handler.otherHandler "handle_value_error"))._error_handlers.get?
        Option.none).getD Dict.empty).get? (ExcClass.otherExc "ValueError") =
      some (Handler.otherHandler "handle_value_error") ∧
    (((sampleApp._register_error_handler (ExcClass.otherExc "ValueError")
        (Handler.otherHandler "handle_value_error"))._error_handlers.get?
        Option.none).getD Dict.empty).get? ExcClass.NotFound =
      ((sampleApp._error_handlers.get? Option.none).getD Dict.empty).get?
        ExcClass.NotFound ∧
    (sampleApp._register_error_handler (ExcClass.otherExc "ValueError")
        (Handler.otherHandler "handle_value_error"))._error_handlers.get?
        (some "bp") =
      sampleApp._error_handlers.get? (some "bp") :=
  ⟨(C7_register_error_handler sampleApp (ExcClass.otherExc "ValueError")
      (Handler.otherHandler "handle_value_error")).1,
   (C7_register_error_handler sampleApp (ExcClass.otherExc "ValueError")
      (Handler.otherHandler "handle_value_error")).2.1 ExcClass.NotFound (by decide),
   (C7_register_error_handler sampleApp (ExcClass.otherExc "ValueError")
      (Handler.otherHandler "handle_value_error")).2.2.1 (some "bp") (by decide)⟩

/-- C1 counterexample: the claim that every registry, the error-handler
registry included, is empty immediately after construction is false: the
freshly constructed `Flask("sample")` already carries the two default
error handlers that `__init__` itself registers. -/
theorem C1_counterexample :
    sampleApp._error_handlers ≠ Dict.empty := by decide

/-- C1 (amended): each of the seven callable registries and the
before-first-request list is empty immediately after construction; the
error-handler registry is created empty but, by the time construction
finishes, holds exactly the two default mappings that `__init__` itself
adds via explicit `_register_error_handler` calls; and the only
registration operation in the file never deletes a registry entry, so
registries only grow. -/
theorem C1_registries_amended (import_name : String)
    (static_url_path static_folder static_host : Option String)
    (host_matching subdomain_matching : Bool)
    (template_folder instance_path : Option String)
    (instance_relative_config : Bool) (root_path : Option String) :
    ∀ app : Flask,
      app = Flask.init import_name static_url_path static_folder static_host
          host_matching subdomain_matching template_folder instance_path
          instance_relative_config root_path →
      app._before_request_funcs = Dict.empty ∧
      app._after_request_funcs = Dict.empty ∧
      app._teardown_request_funcs = Dict.empty ∧
      app._teardown_appcontext_funcs = Dict.empty ∧
      app._url_default_functions = Dict.empty ∧
      app._url_value_preprocessors = Dict.empty ∧
      app._template_context_processors = Dict.empty ∧
      app._before_first_request_funcs = [] ∧
      app._error_handlers = defaultErrorHandlers ∧
      (∀ (b : Flask) (E : ExcClass) (h : Handler) (k : AppOrBlueprintKey)
          (d : Dict ExcClass Handler),
        b._error_handlers.get? k = some d →
          ∃ d₂, (b._register_error_handler E h)._error_handlers.get? k = some d₂) := by
  rintro app rfl
  refine ⟨rfl, rfl, rfl, rfl, rfl, rfl, rfl, rfl, rfl, ?_⟩
  intro b E h k d hd
  by_cases hk : k = Option.none
  · subst hk
    exact ⟨d.insert E h,
      by simp [Flask._register_error_handler, Dict.get?_insert_self, hd]⟩
  · exact ⟨d, by
      simpa [Flask._register_error_handler, Dict.get?_insert_ne _ _ _ _ hk]
        using hd⟩

/-- Witness for C1 (amended): on the concrete `Flask("sample")` the
before-request registry is empty, and re-registering the default
`HTTPException` handler keeps the registry entry under `None` present. -/
theorem C1_registries_amended_witness :
    sampleApp._before_request_funcs = Dict.empty ∧
    ∃ d₂, (sampleApp._register_error_handler ExcClass.HTTPException
        Handler.handle_http_exception)._error_handlers.get? Option.none =
      some d₂ :=
  ⟨(C1_registries_amended "sample" Option.none (some "static") Option.none
      false false (some "templates") Option.none false Option.none
      sampleApp rfl).1,
   (C1_registries_amended "sample" Option.none (some "static") Option.none
      false false (some "templates") Option.none false Option.none
      sampleApp rfl).2.2.2.2.2.2.2.2.2 sampleApp ExcClass.HTTPException
      Handler.handle_http_exception Option.none
      ⟨[(ExcClass.NotFound, Handler.handle_user_exception),
        (ExcClass.HTTPException, Handler.handle_http_exception)]⟩ (by decide)⟩
